import Mathlib

/-!
Verification development for a content/enquiry backend (courses,
testimonials, enquiries over a document store, with seed-once bootstrap).

The data model and request handlers are embedded shallowly from
`src/schemas.py` and `src/main.py`.  The `database` module (`db`,
`create_document`, `get_documents`) is imported by `main.py` but absent
from the sources, so its operations are modelled from the spec's
Document Store Gateway contract (§4.2); each such definition carries a
`Modelled from the spec:` doc comment.  MongoDB ObjectIds become natural
numbers stringified on output; floats carry no arithmetic here, so
`price` is embedded as `ℚ`.
-/

set_option maxRecDepth 4000

namespace Backend

/-- `schemas.py` / `Course`: courses offered by the institute.
`duration_weeks` and `price` are optional (validation bounds `ge=1`,
`ge=0` are boundary rules, not part of the stored shape). -/
structure Course where
  slug : String
  title : String
  category : String
  short_description : String
  description : Option String := none
  image_url : Option String := none
  icon : Option String := none
  duration_weeks : Option Nat := none
  price : Option ℚ := none
  highlights : List String := []
  syllabus : List String := []
deriving Repr, DecidableEq

/-- `schemas.py` / `Testimonial`: student testimonials with outcomes. -/
structure Testimonial where
  name : String
  course_slug : Option String := none
  message : String
  score_or_result : Option String := none
  avatar_url : Option String := none
deriving Repr, DecidableEq

/-- A calendar date, standing in for Python's `datetime.date`. -/
structure SimpleDate where
  year : Nat
  month : Nat
  day : Nat
deriving Repr, DecidableEq

/-- `schemas.py` / `BlogPost`: blog / resources articles. -/
structure BlogPost where
  slug : String
  title : String
  excerpt : String
  content : Option String := none
  cover_image_url : Option String := none
  tags : List String := []
  published_on : Option SimpleDate := none
deriving Repr, DecidableEq

/-- `schemas.py` / `Enquiry`: contact / enquiry submissions.  The
`EmailStr` format constraint is enforced by `validateEnquiry`, not by
the record shape. -/
structure Enquiry where
  name : String
  email : String
  phone : Option String := none
  course_interest : Option String := none
  message : Option String := none
deriving Repr, DecidableEq

/-- `schemas.py` / `InstituteInfo`: singleton-by-convention institute
information.  `social_links` is a platform-name/URL association list. -/
structure InstituteInfo where
  name : String := "International Institute of Languages"
  tagline : Option String := none
  mission : Option String := none
  vision : Option String := none
  address : Option String := none
  email : Option String := none
  phone : Option String := none
  social_links : List (String × String) := []
deriving Repr, DecidableEq

/-- A stored document: the store-assigned identifier (an ObjectId,
modelled as `Nat`) together with the inserted payload. -/
structure Doc (α : Type) where
  id : Nat
  payload : α
deriving Repr, DecidableEq

/-- A document echoed to a client: `_id` normalized to a string. -/
structure OutDoc (α : Type) where
  id : String
  payload : α
deriving Repr, DecidableEq

/-- The document database: one list of documents per collection named in
`/schema` (`course`, `testimonial`, `blogpost`, `enquiry`,
`instituteinfo`), in the store's natural (insertion) order, plus the
next identifier the store will assign. -/
structure Store where
  course : List (Doc Course)
  testimonial : List (Doc Testimonial)
  blogpost : List (Doc BlogPost)
  enquiry : List (Doc Enquiry)
  instituteinfo : List (Doc InstituteInfo)
  nextId : Nat
deriving Repr, DecidableEq

/-- A freshly empty store. -/
def emptyStore : Store :=
  { course := [], testimonial := [], blogpost := [], enquiry := [],
    instituteinfo := [], nextId := 0 }

/-- The error taxonomy of §7, as surfaced by the request handlers
(`HTTPException` status codes in `main.py`, pydantic validation at the
request boundary). -/
inductive ApiError where
  | notFound
  | storeUnavailable
  | validationError (violations : List String)
deriving Repr, DecidableEq

/-- HTTP status attached to each error by the framework / handlers. -/
def ApiError.status : ApiError → Nat
  | .notFound => 404
  | .storeUnavailable => 500
  | .validationError _ => 422

/-- Modelled from the spec: `create_document` of the missing `database`
module, §4.2 — `create(collectionName, record) -> id` serializes the
validated record and inserts it, returning the newly assigned identifier
as an opaque string.  Typed per collection; this is the `course` case. -/
def create_course (s : Store) (c : Course) : Store × String :=
  ({ s with course := s.course ++ [⟨s.nextId, c⟩], nextId := s.nextId + 1 },
   toString s.nextId)

/-- Modelled from the spec: `create_document` for the `testimonial`
collection (see `create_course`). -/
def create_testimonial (s : Store) (t : Testimonial) : Store × String :=
  ({ s with testimonial := s.testimonial ++ [⟨s.nextId, t⟩], nextId := s.nextId + 1 },
   toString s.nextId)

/-- Modelled from the spec: `create_document` for the `enquiry`
collection (see `create_course`). -/
def create_enquiry (s : Store) (e : Enquiry) : Store × String :=
  ({ s with enquiry := s.enquiry ++ [⟨s.nextId, e⟩], nextId := s.nextId + 1 },
   toString s.nextId)

/-- The `for c in sample_courses: create_document("course", c)` loop of
`seed_if_empty`. -/
def insertCourses (s : Store) (cs : List Course) : Store :=
  cs.foldl (fun st c => (create_course st c).1) s

/-- The `for t in testimonials: create_document("testimonial", t)` loop
of `seed_if_empty`. -/
def insertTestimonials (s : Store) (ts : List Testimonial) : Store :=
  ts.foldl (fun st t => (create_testimonial st t).1) s

/-- `main.py` / `seed_if_empty`, `sample_courses`: the three hardcoded
sample courses. -/
def sample_courses : List Course :=
  [ { slug := "ielts-coaching",
      title := "IELTS Coaching",
      category := "Exam Prep",
      short_description := "Master IELTS with expert trainers and personalized feedback.",
      description := some "A structured IELTS program covering Listening, Reading, Writing, and Speaking with mock tests and band-improvement strategies.",
      image_url := some "https://images.unsplash.com/photo-1517520287167-4bbf64a00d66?q=80&w=1600&auto=format&fit=crop",
      icon := some "GraduationCap",
      duration_weeks := some 8,
      price := some 299,
      highlights :=
        [ "Band-focused curriculum",
          "Weekly mock tests",
          "Speaking rooms and feedback" ],
      syllabus :=
        [ "Diagnostic test",
          "Module-wise mastery",
          "Full-length mocks" ] },
    { slug := "pte-preparation",
      title := "PTE Preparation",
      category := "Exam Prep",
      short_description := "Ace PTE with strategy-driven sessions and practice labs.",
      description := some "Learn the PTE patterns, time management and scoring mechanics with practice on real-like tests.",
      image_url := some "https://images.unsplash.com/photo-1523050854058-8df90110c9f1?q=80&w=1600&auto=format&fit=crop",
      icon := some "BookOpen",
      duration_weeks := some 6,
      price := some 249,
      highlights := ["AI-scored practice", "Templates and hacks", "Doubt-clearing clinics"],
      syllabus := ["Speaking & Writing", "Reading", "Listening"] },
    { slug := "foreign-languages",
      title := "Foreign Languages",
      category := "Language",
      short_description := "Learn German, French, Spanish, Japanese and more.",
      description := some "Level-based language learning with immersive activities and conversation practice.",
      image_url := some "https://images.unsplash.com/photo-1546410531-bb4caa6b424d?q=80&w=1600&auto=format&fit=crop",
      icon := some "Globe2",
      duration_weeks := some 12,
      price := some 399,
      highlights := ["A1–C1 levels", "Native mentors", "Cultural immersion"],
      syllabus := ["Basics", "Grammar & Vocabulary", "Conversation"] } ]

/-- `main.py` / `seed_if_empty`, `testimonials`: the two hardcoded
sample testimonials. -/
def sample_testimonials : List Testimonial :=
  [ { name := "Aarav S.",
      course_slug := some "ielts-coaching",
      message := "Scored an overall 8.0! The mocks and feedback were game-changers.",
      score_or_result := some "IELTS 8.0" },
    { name := "Meera T.",
      course_slug := some "pte-preparation",
      message := "I loved the labs. Cracked PTE in the first attempt.",
      score_or_result := some "PTE 79+" } ]

/-- The body of `seed_if_empty` once `db` is known to be live: each of
the `course` and `testimonial` collections is seeded exactly when its
`count_documents(\x7b\x7d) == 0`. -/
def seedStore (s : Store) : Store :=
  let s1 := if s.course.length = 0 then insertCourses s sample_courses else s
  if s1.testimonial.length = 0 then insertTestimonials s1 sample_testimonials else s1

/-- `main.py` / `seed_if_empty`: returns immediately when `db is None`,
otherwise seeds each empty collection with the hardcoded samples. -/
def seed_if_empty (db : Option Store) : Option Store :=
  match db with
  | none => none
  | some s => some (seedStore s)

/-- Modelled from the spec: `get_documents` of the missing `database`
module, §4.2 — `query(collectionName, filter = \x7b\x7d, limit = null)`
returns matching records in the store's natural order, unlimited unless
`limit` is given, and fails with `StoreUnavailable` if disconnected.
The handlers only ever pass the empty filter; this is the `course`
case. -/
def get_documents_course (db : Option Store) (limit : Option Nat := none) :
    Except ApiError (List (Doc Course)) :=
  match db with
  | none => .error .storeUnavailable
  | some s =>
    match limit with
    | none => .ok s.course
    | some n => .ok (s.course.take n)

/-- Modelled from the spec: `get_documents` for the `testimonial`
collection (see `get_documents_course`). -/
def get_documents_testimonial (db : Option Store) (limit : Option Nat := none) :
    Except ApiError (List (Doc Testimonial)) :=
  match db with
  | none => .error .storeUnavailable
  | some s =>
    match limit with
    | none => .ok s.testimonial
    | some n => .ok (s.testimonial.take n)

/-- Normalize a stored document for output:
`d["_id"] = str(d["_id"])`. -/
def outDoc {α : Type} (d : Doc α) : OutDoc α :=
  ⟨toString d.id, d.payload⟩

/-- `main.py` / `list_courses` (`GET /api/courses`): all course
documents with `_id` stringified, wrapped as `items`. -/
def list_courses (db : Option Store) : Except ApiError (List (OutDoc Course)) :=
  match get_documents_course db with
  | .error e => .error e
  | .ok docs => .ok (docs.map outDoc)

/-- `main.py` / `get_course` (`GET /api/courses/\x7bslug\x7d`): 500 when
`db is None`, else `find_one(\x7b"slug": slug\x7d)`; 404 when no match,
otherwise the document with `_id` stringified. -/
def get_course (db : Option Store) (slug : String) : Except ApiError (OutDoc Course) :=
  match db with
  | none => .error .storeUnavailable
  | some s =>
    match s.course.find? (fun d => d.payload.slug == slug) with
    | none => .error .notFound
    | some d => .ok (outDoc d)

/-- `main.py` / `list_testimonials` (`GET /api/testimonials`): up to
`limit` testimonials (query parameter defaulting to 10), `_id`
stringified. -/
def list_testimonials (db : Option Store) (limit : Option Nat := some 10) :
    Except ApiError (List (OutDoc Testimonial)) :=
  match get_documents_testimonial db limit with
  | .error e => .error e
  | .ok docs => .ok (docs.map outDoc)

/-- Splitting a character list at every occurrence of a separator
character: the structural analogue of string splitting (`a@b.co` on `@`
gives `[a, b.co]`), written over `List Char` so that it evaluates by
plain kernel reduction. -/
def splitOnChar (c : Char) : List Char → List (List Char)
  | [] => [[]]
  | x :: xs =>
    match splitOnChar c xs with
    | [] => [[]]
    | hd :: tl => if x = c then [] :: hd :: tl else (x :: hd) :: tl

/-- Modelled from the spec: the email-format rule of the Enquiry
boundary (`email` "must be syntactically valid email", enforced in the
source by pydantic's `EmailStr`, a library outside this repository): a
single `@` separating a non-empty local part from a non-empty,
dot-containing domain of non-empty labels, with no spaces. -/
def isValidEmail (e : String) : Bool :=
  match splitOnChar '@' e.data with
  | [lp, dom] =>
    !lp.isEmpty && !dom.isEmpty &&
    decide (2 ≤ (splitOnChar '.' dom).length) &&
    (splitOnChar '.' dom).all (fun part => !part.isEmpty) &&
    !(e.data.contains ' ')
  | _ => false

/-- The fields recognized by the `Enquiry` schema. -/
def enquiryKnownKeys : List String :=
  ["name", "email", "phone", "course_interest", "message"]

/-- Does a raw payload carry a field the `Enquiry` schema does not
recognize? -/
def hasUnknownField (raw : List (String × String)) : Bool :=
  raw.any (fun kv => !(enquiryKnownKeys.contains kv.1))

/-- Validation of a raw enquiry payload (an association list of
provided fields) against the `Enquiry` schema, as pydantic performs it
at the request boundary: `name` and `email` required, `email` checked
for format, optional fields passed through, unknown extra fields
ignored (pydantic's default extra-field policy), and every violation
enumerated. -/
def validateEnquiry (raw : List (String × String)) : Except ApiError Enquiry :=
  match raw.lookup "name", raw.lookup "email" with
  | some nm, some em =>
    if isValidEmail em then
      .ok { name := nm, email := em, phone := raw.lookup "phone",
            course_interest := raw.lookup "course_interest",
            message := raw.lookup "message" }
    else
      .error (.validationError ["email: value is not a valid email address"])
  | none, some em =>
    .error (.validationError
      ("name: field required" ::
        (if isValidEmail em then [] else ["email: value is not a valid email address"])))
  | some _, none =>
    .error (.validationError ["email: field required"])
  | none, none =>
    .error (.validationError ["name: field required", "email: field required"])

/-- `main.py` / `submit_enquiry` (`POST /api/enquiries`): the framework
first validates the body against `Enquiry`; a validation failure is
surfaced before any store operation, so the store is returned
unchanged.  On success `create_document("enquiry", payload)` runs and
`\x7b"status": "ok", "id": enquiry_id\x7d` is returned. -/
def submit_enquiry (db : Option Store) (raw : List (String × String)) :
    Option Store × Except ApiError (String × String) :=
  match validateEnquiry raw with
  | .error e => (db, .error e)
  | .ok payload =>
    match db with
    | none => (none, .error .storeUnavailable)
    | some s =>
      let r := create_enquiry s payload
      (some r.1, .ok ("ok", r.2))

/-- A direct store query for an enquiry by its (stringified)
identifier. -/
def find_enquiry_by_id (s : Store) (id : String) : Option Enquiry :=
  (s.enquiry.find? (fun d => toString d.id == id)).map (fun d => d.payload)

/-- The live-database handle as the `/test` endpoint probes it: the
`db.name` attribute access and the `list_collection_names()` call, each
allowed to fault (the code wraps them in `try`/`except`). -/
structure DbHandle where
  dbName : Except String String
  listCollectionNames : Except String (List String)

/-- The response body of `GET /test`. -/
structure TestResponse where
  backend : String
  database : String
  database_url : String
  database_name : String
  collections : List String
  collections_error : Option String
  error : Option String
deriving Repr, DecidableEq

/-- `main.py` / `test_database` (`GET /test`): a total function — every
store state, including an absent handle or a faulting probe, yields a
plain response body (HTTP 200), faults being captured into the
`collections_error` / `error` string fields exactly as the nested
`try`/`except` blocks do. -/
def test_database (urlSet : Bool) (db : Option DbHandle) : TestResponse :=
  let base : TestResponse :=
    { backend := "✅ Running", database := "❌ Not Available",
      database_url := "❌ Not Set", database_name := "❌ Not Set",
      collections := [], collections_error := none, error := none }
  match db with
  | none => base
  | some h =>
    let r1 := { base with
      database := "✅ Connected",
      database_url := if urlSet then "✅ Set" else "❌ Not Set" }
    match h.dbName with
    | .error e => { r1 with error := some e }
    | .ok nm =>
      let r2 := { r1 with database_name := nm }
      match h.listCollectionNames with
      | .ok cols => { r2 with collections := cols }
      | .error e => { r2 with collections_error := some e }

/-- `main.py` / `schema_info` (`GET /schema`): the static list of
recognized collection names. -/
def schema_info : List String :=
  ["course", "testimonial", "blogpost", "enquiry", "instituteinfo"]

/-! ### Frame lemmas for the seed loops -/

theorem insertCourses_testimonial (cs : List Course) :
    ∀ s : Store, (insertCourses s cs).testimonial = s.testimonial := by
  induction cs with
  | nil => intro s; rfl
  | cons c cs ih => intro s; exact ih ((create_course s c).1)

theorem insertCourses_blogpost (cs : List Course) :
    ∀ s : Store, (insertCourses s cs).blogpost = s.blogpost := by
  induction cs with
  | nil => intro s; rfl
  | cons c cs ih => intro s; exact ih ((create_course s c).1)

theorem insertCourses_enquiry (cs : List Course) :
    ∀ s : Store, (insertCourses s cs).enquiry = s.enquiry := by
  induction cs with
  | nil => intro s; rfl
  | cons c cs ih => intro s; exact ih ((create_course s c).1)

theorem insertCourses_instituteinfo (cs : List Course) :
    ∀ s : Store, (insertCourses s cs).instituteinfo = s.instituteinfo := by
  induction cs with
  | nil => intro s; rfl
  | cons c cs ih => intro s; exact ih ((create_course s c).1)

theorem insertCourses_course_length (cs : List Course) :
    ∀ s : Store, (insertCourses s cs).course.length = s.course.length + cs.length := by
  induction cs with
  | nil => intro s; rfl
  | cons c cs ih =>
    intro s
    have h := ih ((create_course s c).1)
    simp only [insertCourses, List.foldl] at h ⊢
    rw [h]
    simp [create_course]
    omega

theorem insertTestimonials_course (ts : List Testimonial) :
    ∀ s : Store, (insertTestimonials s ts).course = s.course := by
  induction ts with
  | nil => intro s; rfl
  | cons t ts ih => intro s; exact ih ((create_testimonial s t).1)

theorem insertTestimonials_blogpost (ts : List Testimonial) :
    ∀ s : Store, (insertTestimonials s ts).blogpost = s.blogpost := by
  induction ts with
  | nil => intro s; rfl
  | cons t ts ih => intro s; exact ih ((create_testimonial s t).1)

theorem insertTestimonials_enquiry (ts : List Testimonial) :
    ∀ s : Store, (insertTestimonials s ts).enquiry = s.enquiry := by
  induction ts with
  | nil => intro s; rfl
  | cons t ts ih => intro s; exact ih ((create_testimonial s t).1)

theorem insertTestimonials_instituteinfo (ts : List Testimonial) :
    ∀ s : Store, (insertTestimonials s ts).instituteinfo = s.instituteinfo := by
  induction ts with
  | nil => intro s; rfl
  | cons t ts ih => intro s; exact ih ((create_testimonial s t).1)

theorem insertTestimonials_testimonial_length (ts : List Testimonial) :
    ∀ s : Store, (insertTestimonials s ts).testimonial.length =
      s.testimonial.length + ts.length := by
  induction ts with
  | nil => intro s; rfl
  | cons t ts ih =>
    intro s
    have h := ih ((create_testimonial s t).1)
    simp only [insertTestimonials, List.foldl] at h ⊢
    rw [h]
    simp [create_testimonial]
    omega

/-! ### Seeding populates both gated collections -/

theorem sample_courses_length : sample_courses.length = 3 := rfl

theorem sample_testimonials_length : sample_testimonials.length = 2 := rfl

theorem seedStore_course_length_ne (s : Store) : (seedStore s).course.length ≠ 0 := by
  simp only [seedStore]
  by_cases h1 : s.course.length = 0
  · rw [if_pos h1]
    by_cases h2 : (insertCourses s sample_courses).testimonial.length = 0
    · rw [if_pos h2, insertTestimonials_course, insertCourses_course_length,
        sample_courses_length]
      omega
    · rw [if_neg h2, insertCourses_course_length, sample_courses_length]
      omega
  · rw [if_neg h1]
    by_cases h2 : s.testimonial.length = 0
    · rw [if_pos h2, insertTestimonials_course]
      exact h1
    · rw [if_neg h2]
      exact h1

theorem seedStore_testimonial_length_ne (s : Store) :
    (seedStore s).testimonial.length ≠ 0 := by
  simp only [seedStore]
  by_cases h1 : s.course.length = 0
  · rw [if_pos h1]
    by_cases h2 : (insertCourses s sample_courses).testimonial.length = 0
    · rw [if_pos h2, insertTestimonials_testimonial_length, sample_testimonials_length]
      omega
    · rw [if_neg h2]
      exact h2
  · rw [if_neg h1]
    by_cases h2 : s.testimonial.length = 0
    · rw [if_pos h2, insertTestimonials_testimonial_length, sample_testimonials_length]
      omega
    · rw [if_neg h2]
      exact h2

theorem seedStore_idem (s : Store) : seedStore (seedStore s) = seedStore s := by
  have h1 := seedStore_course_length_ne s
  have h2 := seedStore_testimonial_length_ne s
  conv_lhs => rw [seedStore]
  simp only [if_neg h1, if_neg h2]

/-- C1: invoking seed-if-empty twice in succession, from any store
state (a live store or none at all), leaves exactly the same documents
as invoking it once: after the first invocation both gated collections
are non-empty, so both count checks fail and the second invocation is a
no-op. -/
theorem seed_if_empty_idempotent (db : Option Store) :
    seed_if_empty (seed_if_empty db) = seed_if_empty db := by
  cases db with
  | none => rfl
  | some s => simp [seed_if_empty, seedStore_idem]

/-- C2: running seed-if-empty on a store whose `course` and
`testimonial` collections are both empty inserts exactly the 3 sample
courses (slugs `ielts-coaching`, `pte-preparation`,
`foreign-languages`) and exactly the 2 sample testimonials, after which
`GET /api/courses` returns exactly 3 items. -/
theorem seed_on_empty_store :
    ∃ s : Store, seed_if_empty (some emptyStore) = some s ∧
      s.course.map (fun d => d.payload) = sample_courses ∧
      s.course.map (fun d => d.payload.slug) =
        ["ielts-coaching", "pte-preparation", "foreign-languages"] ∧
      s.course.length = 3 ∧
      s.testimonial.map (fun d => d.payload) = sample_testimonials ∧
      s.testimonial.length = 2 ∧
      ∃ items, list_courses (some s) = Except.ok items ∧ items.length = 3 :=
  ⟨seedStore emptyStore, rfl, rfl, rfl, rfl, rfl, rfl,
    ((seedStore emptyStore).course.map outDoc), rfl, rfl⟩

/-- C9: after seeding a fresh store, fetching the course with slug
`ielts-coaching` returns a record with title `IELTS Coaching`,
`duration_weeks = 8` and `price = 299.0`. -/
theorem get_course_ielts_after_seed :
    ∃ d : OutDoc Course,
      get_course (seed_if_empty (some emptyStore)) "ielts-coaching" = Except.ok d ∧
      d.payload.title = "IELTS Coaching" ∧
      d.payload.duration_weeks = some 8 ∧
      d.payload.price = some (299 : ℚ) :=
  ⟨_, rfl, rfl, rfl, rfl⟩

theorem seedStore_blogpost (s : Store) : (seedStore s).blogpost = s.blogpost := by
  simp only [seedStore]
  by_cases h1 : s.course.length = 0
  · rw [if_pos h1]
    by_cases h2 : (insertCourses s sample_courses).testimonial.length = 0
    · rw [if_pos h2, insertTestimonials_blogpost, insertCourses_blogpost]
    · rw [if_neg h2, insertCourses_blogpost]
  · rw [if_neg h1]
    by_cases h2 : s.testimonial.length = 0
    · rw [if_pos h2, insertTestimonials_blogpost]
    · rw [if_neg h2]

theorem seedStore_enquiry (s : Store) : (seedStore s).enquiry = s.enquiry := by
  simp only [seedStore]
  by_cases h1 : s.course.length = 0
  · rw [if_pos h1]
    by_cases h2 : (insertCourses s sample_courses).testimonial.length = 0
    · rw [if_pos h2, insertTestimonials_enquiry, insertCourses_enquiry]
    · rw [if_neg h2, insertCourses_enquiry]
  · rw [if_neg h1]
    by_cases h2 : s.testimonial.length = 0
    · rw [if_pos h2, insertTestimonials_enquiry]
    · rw [if_neg h2]

theorem seedStore_instituteinfo (s : Store) :
    (seedStore s).instituteinfo = s.instituteinfo := by
  simp only [seedStore]
  by_cases h1 : s.course.length = 0
  · rw [if_pos h1]
    by_cases h2 : (insertCourses s sample_courses).testimonial.length = 0
    · rw [if_pos h2, insertTestimonials_instituteinfo, insertCourses_instituteinfo]
    · rw [if_neg h2, insertCourses_instituteinfo]
  · rw [if_neg h1]
    by_cases h2 : s.testimonial.length = 0
    · rw [if_pos h2, insertTestimonials_instituteinfo]
    · rw [if_neg h2]

/-- C10: seed_if_empty only ever writes to the `course` and
`testimonial` collections (the `blogpost`, `enquiry` and
`instituteinfo` collections are untouched for every starting state);
the two collections are gated independently (an empty `course`
collection is seeded even when `testimonial` is non-empty, and vice
versa); and when no live store connection exists it returns
immediately, leaving no store state to change. -/
theorem seed_frame_and_gating (s : Store) :
    seed_if_empty none = none ∧
    (∃ t : Store, seed_if_empty (some s) = some t ∧
      t.blogpost = s.blogpost ∧ t.enquiry = s.enquiry ∧
      t.instituteinfo = s.instituteinfo) ∧
    (s.course.length = 0 → s.testimonial.length ≠ 0 →
      (seedStore s).course.length = 3 ∧ (seedStore s).testimonial = s.testimonial) ∧
    (s.course.length ≠ 0 → s.testimonial.length = 0 →
      (seedStore s).course = s.course ∧ (seedStore s).testimonial.length = 2) := by
  refine ⟨rfl,
    ⟨seedStore s, rfl, seedStore_blogpost s, seedStore_enquiry s, seedStore_instituteinfo s⟩,
    ?_, ?_⟩
  · intro h1 h2
    have hts : (insertCourses s sample_courses).testimonial.length ≠ 0 := by
      rw [insertCourses_testimonial]
      exact h2
    simp only [seedStore]
    rw [if_pos h1, if_neg hts, insertCourses_course_length, sample_courses_length,
      insertCourses_testimonial]
    exact ⟨by omega, rfl⟩
  · intro h1 h2
    simp only [seedStore]
    rw [if_neg h1, if_pos h2, insertTestimonials_course,
      insertTestimonials_testimonial_length, sample_testimonials_length]
    exact ⟨rfl, by omega⟩

/-- C10 witness: a store with one testimonial and no course exercises
the course-side gating clause. -/
theorem seed_frame_and_gating_witness :
    (seedStore { emptyStore with
      testimonial := [⟨0, { name := "N", message := "M" }⟩], nextId := 1 }).course.length = 3 :=
  ((seed_frame_and_gating { emptyStore with
      testimonial := [⟨0, { name := "N", message := "M" }⟩], nextId := 1 }).2.2.1
    rfl (by decide)).1

/-- C3: get_course fails with `NotFound` (404) exactly when the store
is live and no course document matches the slug, fails with
`StoreUnavailable` (500) exactly when no live store connection exists,
and when `find_one` locates a matching document it returns that
document with its identifier converted to a string. -/
theorem get_course_errors (db : Option Store) (slug : String) :
    (get_course db slug = Except.error ApiError.storeUnavailable ↔ db = none) ∧
    (get_course db slug = Except.error ApiError.notFound ↔
      ∃ s : Store, db = some s ∧ ∀ d ∈ s.course, d.payload.slug ≠ slug) ∧
    (∀ (s : Store) (d : Doc Course), db = some s →
      s.course.find? (fun d2 => d2.payload.slug == slug) = some d →
      get_course db slug = Except.ok ⟨toString d.id, d.payload⟩) := by
  refine ⟨?_, ?_, ?_⟩
  · cases db with
    | none => simp [get_course]
    | some s =>
      simp only [get_course]
      cases hfind : s.course.find? (fun d2 => d2.payload.slug == slug) with
      | none => simp
      | some d => simp
  · cases db with
    | none => simp [get_course]
    | some s =>
      simp only [get_course]
      cases hfind : s.course.find? (fun d2 => d2.payload.slug == slug) with
      | none =>
        rw [List.find?_eq_none] at hfind
        simp only [Option.some.injEq, true_and]
        constructor
        · intro _
          exact ⟨s, rfl, fun d hd => by simpa using hfind d hd⟩
        · intro _
          trivial
      | some d =>
        have hmem := List.find?_some hfind
        rw [beq_iff_eq] at hmem
        simp only [reduceCtorEq, Option.some.injEq, false_iff]
        intro ⟨s2, hs2, hall⟩
        cases hs2
        exact hall d (List.mem_of_find?_eq_some hfind) hmem
  · intro s d hdb hfind
    subst hdb
    simp [get_course, hfind, outDoc]

/-- C3 witness: a live but empty store yields `NotFound` for any
slug. -/
theorem get_course_errors_witness :
    get_course (some emptyStore) "nonexistent-course" = Except.error ApiError.notFound :=
  (get_course_errors (some emptyStore) "nonexistent-course").2.1.mpr
    ⟨emptyStore, rfl, by simp [emptyStore]⟩

/-- C7: the diagnostic endpoint is total — it is a plain function into
response bodies (an HTTP 200 for every store state, never an
exception), with `backend` always reporting a running process; when no
live store connection exists the body reports
`database == "❌ Not Available"`; a fault while reading the database
name is captured in the `error` string field, and a fault while listing
collections is captured in the `collections_error` string field,
instead of propagating. -/
theorem test_database_safe (urlSet : Bool) (db : Option DbHandle) :
    (test_database urlSet db).backend = "✅ Running" ∧
    (db = none → (test_database urlSet db).database = "❌ Not Available") ∧
    (∀ h : DbHandle, db = some h → (test_database urlSet db).database = "✅ Connected") ∧
    (∀ (h : DbHandle) (e : String), db = some h → h.dbName = Except.error e →
      (test_database urlSet db).error = some e) ∧
    (∀ (h : DbHandle) (nm e : String), db = some h → h.dbName = Except.ok nm →
      h.listCollectionNames = Except.error e →
      (test_database urlSet db).collections_error = some e) := by
  refine ⟨?_, ?_, ?_, ?_, ?_⟩
  · cases db with
    | none => rfl
    | some h =>
      cases hn : h.dbName with
      | error e => simp [test_database, hn]
      | ok nm =>
        cases hc : h.listCollectionNames with
        | error e => simp [test_database, hn, hc]
        | ok cols => simp [test_database, hn, hc]
  · intro hdb
    subst hdb
    rfl
  · intro h hdb
    subst hdb
    cases hn : h.dbName with
    | error e => simp [test_database, hn]
    | ok nm =>
      cases hc : h.listCollectionNames with
      | error e => simp [test_database, hn, hc]
      | ok cols => simp [test_database, hn, hc]
  · intro h e hdb hn
    subst hdb
    simp [test_database, hn]
  · intro h nm e hdb hn hc
    subst hdb
    simp [test_database, hn, hc]

/-- C7 witness: a live handle whose collection listing faults still
produces a body, with the fault captured as a string field. -/
theorem test_database_safe_witness :
    (test_database false (some ⟨Except.ok "appdb", Except.error "boom"⟩)).collections_error =
      some "boom" :=
  (test_database_safe false (some ⟨Except.ok "appdb", Except.error "boom"⟩)).2.2.2.2
    ⟨Except.ok "appdb", Except.error "boom"⟩ "appdb" "boom" rfl rfl rfl

/-- C8: list_testimonials defaults its `limit` query parameter to 10
when not supplied, returns at most `limit` records, and after seeding a
fresh store (2 testimonials inserted) a call with `limit = 1` returns
exactly 1 item. -/
theorem list_testimonials_limit (db : Option Store) (s : Store) (n : Nat) :
    list_testimonials db = list_testimonials db (some 10) ∧
    (∀ items, list_testimonials (some s) (some n) = Except.ok items →
      items.length ≤ n) ∧
    (∃ items,
      list_testimonials (seed_if_empty (some emptyStore)) (some 1) = Except.ok items ∧
      items.length = 1) := by
  refine ⟨rfl, ?_, ⟨_, rfl, rfl⟩⟩
  intro items h
  simp only [list_testimonials, get_documents_testimonial, Except.ok.injEq] at h
  subst h
  simp only [List.length_map, List.length_take]
  exact Nat.min_le_left _ _

/-- C8 witness: the seeded store holds 2 testimonials, and a query with
limit 1 yields at most 1. -/
theorem list_testimonials_limit_witness :
    (((seedStore emptyStore).testimonial.take 1).map outDoc).length ≤ 1 :=
  (list_testimonials_limit none (seedStore emptyStore) 1).2.1 _ rfl

/-! ### Identifier strings are never empty -/

theorem toDigitsCore_ne_nil :
    ∀ (b f n : Nat) (ds : List Char), f ≠ 0 ∨ ds ≠ [] →
      Nat.toDigitsCore b f n ds ≠ [] := by
  intro b f
  induction f with
  | zero =>
    intro n ds h
    rcases h with h | h
    · exact absurd rfl h
    · simpa [Nat.toDigitsCore] using h
  | succ f ih =>
    intro n ds h
    simp only [Nat.toDigitsCore]
    by_cases hnb : n / b = 0
    · rw [if_pos hnb]
      simp
    · rw [if_neg hnb]
      exact ih (n / b) _ (Or.inr (by simp))

theorem Nat_repr_ne_empty (n : Nat) : Nat.repr n ≠ "" := by
  have h := toDigitsCore_ne_nil 10 (n + 1) n [] (Or.inl (Nat.succ_ne_zero n))
  intro hc
  have h2 : Nat.toDigits 10 n = ([] : List Char) := by
    have h3 := congrArg String.data hc
    simpa [Nat.repr, List.asString] using h3
  exact h (by simpa [Nat.toDigits] using h2)

/-! ### find? helpers -/

theorem find?_append_of_all_false {α : Type} (p : α → Bool) :
    ∀ l1 l2 : List α, (∀ x ∈ l1, p x = false) →
      (l1 ++ l2).find? p = l2.find? p := by
  intro l1
  induction l1 with
  | nil => intro l2 _; rfl
  | cons a l1 ih =>
    intro l2 h
    have ha : p a = false := h a (List.mem_cons_self a l1)
    rw [List.cons_append, List.find?_cons_of_neg _ (by simp [ha])]
    exact ih l2 (fun x hx => h x (List.mem_cons_of_mem a hx))

/-- C4: every Enquiry payload that passes schema validation is accepted
by submit-enquiry with status `"ok"` and a non-empty identifier string,
and a direct store query for that identifier returns a record equal to
the validated payload.  The hypothesis on `s` is the store-assigned
uniqueness of identifiers (§3): no already-stored enquiry carries the
identifier string the store assigns next. -/
theorem submit_enquiry_ok (s : Store) (raw : List (String × String)) (enq : Enquiry)
    (hid : ∀ d ∈ s.enquiry, toString d.id ≠ toString s.nextId)
    (hv : validateEnquiry raw = Except.ok enq) :
    ∃ (s2 : Store) (id : String),
      submit_enquiry (some s) raw = (some s2, Except.ok ("ok", id)) ∧
      id ≠ "" ∧
      find_enquiry_by_id s2 id = some enq := by
  refine ⟨(create_enquiry s enq).1, toString s.nextId, ?_, ?_, ?_⟩
  · simp only [submit_enquiry, hv]
    rfl
  · exact Nat_repr_ne_empty s.nextId
  · simp only [find_enquiry_by_id, create_enquiry]
    rw [find?_append_of_all_false _ _ _
      (fun d hd => beq_eq_false_iff_ne.mpr (hid d hd))]
    rw [List.find?_cons_of_pos _ (by simp)]
    rfl

/-- C4 witness: a fresh store accepts a well-formed enquiry and serves
it back by its identifier. -/
theorem submit_enquiry_ok_witness :
    ∃ (s2 : Store) (id : String),
      submit_enquiry (some emptyStore) [("name", "Aarav"), ("email", "a@b.co")] =
        (some s2, Except.ok ("ok", id)) ∧
      id ≠ "" ∧
      find_enquiry_by_id s2 id = some { name := "Aarav", email := "a@b.co" } :=
  submit_enquiry_ok emptyStore [("name", "Aarav"), ("email", "a@b.co")]
    { name := "Aarav", email := "a@b.co" } (by simp [emptyStore]) rfl

/-- C5: an enquiry payload whose email is not syntactically valid is
rejected with a `ValidationError` surfaced as a 422 (4xx-class)
response, and the store state is returned unchanged — validation fails
at the request boundary, before any store operation. -/
theorem submit_enquiry_invalid_email (db : Option Store)
    (raw : List (String × String)) (em : String)
    (hem : raw.lookup "email" = some em) (hbad : isValidEmail em = false) :
    ∃ msgs, validateEnquiry raw = Except.error (ApiError.validationError msgs) ∧
      submit_enquiry db raw = (db, Except.error (ApiError.validationError msgs)) ∧
      (ApiError.validationError msgs).status = 422 := by
  cases hname : raw.lookup "name" with
  | some nm =>
    refine ⟨["email: value is not a valid email address"], ?_, ?_, rfl⟩
    · simp [validateEnquiry, hname, hem, hbad]
    · simp [submit_enquiry, validateEnquiry, hname, hem, hbad]
  | none =>
    refine ⟨["name: field required", "email: value is not a valid email address"],
      ?_, ?_, rfl⟩
    · simp [validateEnquiry, hname, hem, hbad]
    · simp [submit_enquiry, validateEnquiry, hname, hem, hbad]

/-- C5 witness: the payload with email `not-an-email` is rejected and
the store (here a live empty one) is left unchanged. -/
theorem submit_enquiry_invalid_email_witness :
    ∃ msgs,
      validateEnquiry [("name", "X"), ("email", "not-an-email")] =
        Except.error (ApiError.validationError msgs) ∧
      submit_enquiry (some emptyStore) [("name", "X"), ("email", "not-an-email")] =
        (some emptyStore, Except.error (ApiError.validationError msgs)) ∧
      (ApiError.validationError msgs).status = 422 :=
  submit_enquiry_invalid_email (some emptyStore)
    [("name", "X"), ("email", "not-an-email")] "not-an-email" rfl rfl

/-- C6 counterexample: the `Enquiry` model declares no strict
extra-field policy (pydantic's default is to ignore unknown fields), so
a payload carrying the unrecognized field `extra_field` passes
validation and is accepted by submit-enquiry — it is not rejected. -/
theorem validateEnquiry_accepts_unknown_field :
    hasUnknownField
      [("name", "Aarav"), ("email", "a@b.co"), ("extra_field", "x")] = true ∧
    validateEnquiry
      [("name", "Aarav"), ("email", "a@b.co"), ("extra_field", "x")] =
      Except.ok { name := "Aarav", email := "a@b.co" } ∧
    (submit_enquiry (some emptyStore)
      [("name", "Aarav"), ("email", "a@b.co"), ("extra_field", "x")]).2 =
      Except.ok ("ok", "0") :=
  ⟨rfl, rfl, rfl⟩

theorem lookup_filter_of_mem (k : String) (p : String → Bool) (hk : p k = true) :
    ∀ l : List (String × String),
      (l.filter (fun kv => p kv.1)).lookup k = l.lookup k := by
  intro l
  induction l with
  | nil => rfl
  | cons kv l ih =>
    rcases kv with ⟨k2, v2⟩
    by_cases h : p k2 = true
    · by_cases hkk : k = k2
      · subst hkk
        simp [List.filter, List.lookup, h]
      · have hb : (k == k2) = false := by simp [hkk]
        simp [List.filter, List.lookup, h, hb, ih]
    · have h2 : p k2 = false := by simpa using h
      have hkk : ¬ k = k2 := fun he => h (he ▸ hk)
      have hb : (k == k2) = false := by simp [hkk]
      simp [List.filter, List.lookup, h2, hb, ih]

/-- C6 amended: enquiry submission is not a strict boundary — unknown
extra fields are ignored rather than rejected: dropping every
unrecognized field from a payload leaves the validation result (success
or failure alike) unchanged. -/
theorem validateEnquiry_ignores_unknown_fields (raw : List (String × String)) :
    validateEnquiry (raw.filter (fun kv => enquiryKnownKeys.contains kv.1)) =
      validateEnquiry raw := by
  have h1 := lookup_filter_of_mem "name" enquiryKnownKeys.contains (by decide) raw
  have h2 := lookup_filter_of_mem "email" enquiryKnownKeys.contains (by decide) raw
  have h3 := lookup_filter_of_mem "phone" enquiryKnownKeys.contains (by decide) raw
  have h4 := lookup_filter_of_mem "course_interest" enquiryKnownKeys.contains (by decide) raw
  have h5 := lookup_filter_of_mem "message" enquiryKnownKeys.contains (by decide) raw
  simp only [validateEnquiry, h1, h2, h3, h4, h5]

end Backend
